import Mathlib

/-!
Verification of the FinSight-AI company-comparison agent.

The development shallowly embeds the Python sources:
  * `src/utils/utils.py`   — `compare_companies`, `tools`, `handle_tool_calls`,
    `is_comparison_query`;
  * `src/utils/data.py`    — `system_prompt`, `compare_companies_json`;
  * `src/agents/comparison_agent.py` — `ComparisonAgent._extract_latest_text`,
    `ComparisonAgent._chat_with_tools`, `ComparisonAgent.process_messages`;
  * `src/main.py`          — the `/a2a/compare` endpoint handler.

Modelling conventions:
  * Python/JSON values are the inductive `Json`; numbers are modelled as
    integers (the code performs no arithmetic on them, only key lookups and
    string formatting, so only the textual rendering of non-integer floats is
    approximated).
  * Python dicts are association lists with unique keys, in insertion order.
  * Exceptions are `Except String` / the `PyResult` type; the string carries
    the Python error description `str(e)`.
  * External effects are oracles passed explicitly: `yfinance` lookups are a
    `String → Except String (List (String × Json))` function (exception or
    `.info` record), the OpenAI chat completion is a
    `List ChatMessage → Except String ModelChoice` function, and `json.loads`
    is a `String → Except String Json` function.  The unbounded `while` loop
    of `_chat_with_tools` is embedded with an explicit fuel parameter; running
    out of fuel is the distinguished outcome `diverge`, distinct from every
    Python behaviour.
  * Texts are assumed ASCII as far as case folding (`str.lower`),
    whitespace (`str.strip`, regex `\s`) and word characters (regex `\w`)
    are concerned.
-/

/-- A JSON value, doubling as the model of the Python values the agent
manipulates (`None`, booleans, numbers, strings, lists, dicts). -/
inductive Json where
  | null : Json
  | bool (b : Bool) : Json
  | num (n : Int) : Json
  | str (s : String) : Json
  | arr (xs : List Json) : Json
  | obj (fields : List (String × Json)) : Json

/-- Python `dict.get(k)`: the value at the first matching key, if any. -/
def dictGet? (d : List (String × Json)) (k : String) : Option Json :=
  (d.find? (fun p => p.1 == k)).map (fun p => p.2)

/-- Python `dict.get(k, default)`. -/
def dictGetD (d : List (String × Json)) (k : String) (default : Json) : Json :=
  (dictGet? d k).getD default

/-- Python `k in d` for a dict. -/
def hasKey (d : List (String × Json)) (k : String) : Bool :=
  (dictGet? d k).isSome

/-- Python `d[k] = v` on a dict: replace the existing binding or append. -/
def setKey {α : Type} : List (String × α) → String → α → List (String × α)
  | [], k, v => [(k, v)]
  | (k2, v2) :: rest, k, v =>
    if k2 == k then (k, v) :: rest else (k2, v2) :: setKey rest k v

/-- Python `m.get(k, default)` for a string-keyed map with arbitrary values. -/
def lookupD {α : Type} (m : List (String × α)) (k : String) (default : α) : α :=
  match m.find? (fun p => p.1 == k) with
  | some p => p.2
  | none => default

/-- Python truthiness of a JSON-like value. -/
def pyTruthy : Json → Bool
  | Json.null => false
  | Json.bool b => b
  | Json.num n => !(n == 0)
  | Json.str s => !(s == "")
  | Json.arr xs => !xs.isEmpty
  | Json.obj fs => !fs.isEmpty

/-- Minimal JSON string escaping (quote, backslash, newline); the strings the
agent serializes contain none of the characters that need escaping. -/
def escapeJson (s : String) : String :=
  String.join (s.toList.map (fun c =>
    if c == Char.ofNat 34 then "\\\x22"
    else if c == Char.ofNat 92 then "\\\\"
    else if c == '\n' then "\\n"
    else String.singleton c))

/-- CPython default recursion limit; serializing a structure nested more
deeply raises `RecursionError`. -/
def pyRecursionLimit : Nat := 1000

/-- Collect a list of fallible results, propagating the first error. -/
def seqExcept : List (Except String String) → Except String (List String)
  | [] => Except.ok []
  | Except.error e :: _ => Except.error e
  | Except.ok s :: rest =>
    match seqExcept rest with
    | Except.error e => Except.error e
    | Except.ok ss => Except.ok (s :: ss)

/-- Python `json.dumps` with its default separators, with the interpreter
recursion limit as a structural fuel argument: a structure nested more
deeply than the limit raises, exactly like CPython. -/
def jsonDumpsF : Nat → Json → Except String String
  | 0, _ => Except.error "RecursionError: maximum recursion depth exceeded"
  | fuel + 1, j =>
    match j with
    | Json.null => Except.ok "null"
    | Json.bool b => Except.ok (if b then "true" else "false")
    | Json.num n => Except.ok (toString n)
    | Json.str s => Except.ok ("\x22" ++ escapeJson s ++ "\x22")
    | Json.arr xs =>
      match seqExcept (xs.map (jsonDumpsF fuel)) with
      | Except.error e => Except.error e
      | Except.ok parts => Except.ok ("[" ++ String.intercalate ", " parts ++ "]")
    | Json.obj fs =>
      match
        seqExcept (fs.map (fun kv =>
          match jsonDumpsF fuel kv.2 with
          | Except.error e => Except.error e
          | Except.ok s => Except.ok ("\x22" ++ escapeJson kv.1 ++ "\x22: " ++ s)))
      with
      | Except.error e => Except.error e
      | Except.ok parts =>
        Except.ok ("\x7b" ++ String.intercalate ", " parts ++ "\x7d")

/-- Python `json.dumps`. -/
def jsonDumps (j : Json) : Except String String := jsonDumpsF pyRecursionLimit j

/-- Python `str(...)` as used in the f-strings of `compare_companies`.
Exact for the scalar values a `yfinance` info dict holds; the rendering of
nested containers (which never occur there) is approximated by their JSON
serialization. -/
def pyStr : Json → String
  | Json.null => "None"
  | Json.bool b => if b then "True" else "False"
  | Json.num n => toString n
  | Json.str s => s
  | j =>
    match jsonDumps j with
    | Except.ok s => s
    | Except.error _ => ""

/-- Regex `\s` (Python whitespace class, ASCII part). -/
def isPySpace (c : Char) : Bool :=
  c == ' ' || c == '\t' || c == '\n' || c == '\r' ||
  c == Char.ofNat 11 || c == Char.ofNat 12

/-- Python `str.strip()` (ASCII whitespace). -/
def pyStrip (s : String) : String :=
  String.mk (((s.toList.dropWhile isPySpace).reverse.dropWhile isPySpace).reverse)

/-- Python `str.startswith(p)` (on ASCII text). -/
def pyStarts (s : String) (p : String) : Bool :=
  p.toList.isPrefixOf s.toList

/-- ASCII lower-casing of one character. -/
def pyLowerChar (c : Char) : Char :=
  if 'A' ≤ c && c ≤ 'Z' then Char.ofNat (c.toNat + 32) else c

/-- Python `str.lower()` (ASCII case folding), then exploded to characters,
the form the regex matchers work on. -/
def lowerChars (text : String) : List Char := text.toList.map pyLowerChar

/-! ## Intent filter: `is_comparison_query` (src/utils/utils.py lines 75-98)

The regex alternation is embedded pattern by pattern.  `\b` is a word
boundary (`\w` = ASCII alphanumeric or underscore), `\s+` a nonempty
whitespace run, `.*` any run of characters other than a newline
(`re.DOTALL` is not set), and `re.IGNORECASE` is modelled by matching the
lowercase patterns against the lowercased text. -/

/-- Regex `\w` for ASCII text. -/
def isWordChar (c : Char) : Bool := c.isAlphanum || c == '_'

/-- A word boundary holds just before position `i`. -/
def leftBoundary (cs : List Char) (i : Nat) : Bool :=
  i == 0 || !isWordChar (cs.getD (i - 1) ' ')

/-- A word boundary holds just after position `j - 1`, i.e. at offset `j`. -/
def rightBoundary (cs : List Char) (j : Nat) : Bool :=
  decide (cs.length ≤ j) || !isWordChar (cs.getD j ' ')

/-- The literal `w` occurs at offset `i`. -/
def occursAt (w : List Char) (cs : List Char) (i : Nat) : Bool :=
  w.isPrefixOf (cs.drop i)

/-- Regex `\bw\b` matches at offset `i`. -/
def wordAt (w : String) (cs : List Char) (i : Nat) : Bool :=
  leftBoundary cs i && occursAt w.toList cs i && rightBoundary cs (i + w.length)

/-- Regex `\bw\b` matches somewhere (`re.search`). -/
def wordPat (w : String) (cs : List Char) : Bool :=
  (List.range (cs.length + 1)).any (fun i => wordAt w cs i)

/-- Length of the whitespace run starting at offset `j`. -/
def wsRun (cs : List Char) (j : Nat) : Nat :=
  ((cs.drop j).takeWhile isPySpace).length

/-- Offset just after a nonempty whitespace run starting at `j`; `\s+`
followed by a non-whitespace literal can only match this way. -/
def afterWs (cs : List Char) (j : Nat) : Option Nat :=
  let r := wsRun cs j
  if r == 0 then none else some (j + r)

/-- One of `alts` occurs at offset `k` with a word boundary after it. -/
def altAt (alts : List String) (cs : List Char) (k : Nat) : Bool :=
  alts.any (fun a => occursAt a.toList cs k && rightBoundary cs (k + a.length))

/-- Regex `\bfirst\s+(alt1|alt2|...)\b`. -/
def seqPat (first : String) (alts : List String) (cs : List Char) : Bool :=
  (List.range (cs.length + 1)).any (fun i =>
    leftBoundary cs i && occursAt first.toList cs i &&
      (match afterWs cs (i + first.length) with
       | none => false
       | some k => altAt alts cs k))

/-- Regex `.*` spans offsets `a` to `b` (no newline in between). -/
def dotStarOk (cs : List Char) (a b : Nat) : Bool :=
  ((cs.drop a).take (b - a)).all (fun c => !(c == '\n'))

/-- Regex `\bvs\.\b`: the boundary after the dot requires a word character
right after it. -/
def vsDotPat (cs : List Char) : Bool :=
  (List.range (cs.length + 1)).any (fun i =>
    leftBoundary cs i && occursAt "vs.".toList cs i &&
      (decide (i + 3 < cs.length) && isWordChar (cs.getD (i + 3) ' ')))

/-- Regex `\bhow\s+does\b.*\bcompare\b.*\bto\b`. -/
def howDoesPat (cs : List Char) : Bool :=
  (List.range (cs.length + 1)).any (fun i =>
    leftBoundary cs i && occursAt "how".toList cs i &&
      (match afterWs cs (i + 3) with
       | none => false
       | some k =>
         occursAt "does".toList cs k && rightBoundary cs (k + 4) &&
           (List.range (cs.length + 1)).any (fun q =>
             decide (k + 4 ≤ q) && dotStarOk cs (k + 4) q &&
               leftBoundary cs q && occursAt "compare".toList cs q &&
               rightBoundary cs (q + 7) &&
               (List.range (cs.length + 1)).any (fun t =>
                 decide (q + 7 ≤ t) && dotStarOk cs (q + 7) t &&
                   leftBoundary cs t && occursAt "to".toList cs t &&
                   rightBoundary cs (t + 2)))))

/-- Regex `\bhow\s+do\b.*\bcompare\b`. -/
def howDoPat (cs : List Char) : Bool :=
  (List.range (cs.length + 1)).any (fun i =>
    leftBoundary cs i && occursAt "how".toList cs i &&
      (match afterWs cs (i + 3) with
       | none => false
       | some k =>
         occursAt "do".toList cs k && rightBoundary cs (k + 2) &&
           (List.range (cs.length + 1)).any (fun q =>
             decide (k + 2 ≤ q) && dotStarOk cs (k + 2) q &&
               leftBoundary cs q && occursAt "compare".toList cs q &&
               rightBoundary cs (q + 7))))

/-- Regex `\bwhich\s+(is|has|performs|does)\b.*\b(better|worse|higher|lower|more|less)\b`. -/
def whichPat (cs : List Char) : Bool :=
  (List.range (cs.length + 1)).any (fun i =>
    leftBoundary cs i && occursAt "which".toList cs i &&
      (match afterWs cs (i + 5) with
       | none => false
       | some k =>
         ["is", "has", "performs", "does"].any (fun f =>
           occursAt f.toList cs k && rightBoundary cs (k + f.length) &&
             (List.range (cs.length + 1)).any (fun q =>
               decide (k + f.length ≤ q) && dotStarOk cs (k + f.length) q &&
                 leftBoundary cs q &&
                 altAt ["better", "worse", "higher", "lower", "more", "less"] cs q))))

/-- Regex `\b(is|are)\s+(better|worse|higher|lower|more|less)\b`. -/
def isArePat (cs : List Char) : Bool :=
  (List.range (cs.length + 1)).any (fun i =>
    leftBoundary cs i &&
      ["is", "are"].any (fun f =>
        occursAt f.toList cs i &&
          (match afterWs cs (i + f.length) with
           | none => false
           | some k => altAt ["better", "worse", "higher", "lower", "more", "less"] cs k)))

/-- `is_comparison_query` (src/utils/utils.py lines 75-98): `re.search` of
the joined alternation, case-insensitively; one disjunct per source
pattern, in source order. -/
def is_comparison_query (text : String) : Bool :=
  wordPat "better" (lowerChars text) ||
  wordPat "worse" (lowerChars text) ||
  wordPat "compare" (lowerChars text) ||
  wordPat "comparing" (lowerChars text) ||
  wordPat "comparison" (lowerChars text) ||
  wordPat "versus" (lowerChars text) ||
  wordPat "vs" (lowerChars text) ||
  vsDotPat (lowerChars text) ||
  wordPat "against" (lowerChars text) ||
  wordPat "between" (lowerChars text) ||
  seqPat "difference" ["between", "of"] (lowerChars text) ||
  howDoesPat (lowerChars text) ||
  howDoPat (lowerChars text) ||
  whichPat (lowerChars text) ||
  isArePat (lowerChars text) ||
  wordPat "than" (lowerChars text) ||
  seqPat "relative" ["to"] (lowerChars text)

/-- The claim C7 notion of a text containing one of the fixed comparison
pattern words, matched case-insensitively at word boundaries. -/
def containsWordCI (w : String) (text : String) : Bool :=
  wordPat w (lowerChars text)

/-- The pattern words claim C7 enumerates. -/
def claimWords : List String :=
  ["compare", "versus", "vs", "better", "worse", "between", "than"]

/-! ## Data provider adapter: `compare_companies` (src/utils/utils.py lines 7-48)

`yf.Ticker(t).info` is the external data source, modelled as an oracle
`String → Except String (List (String × Json))`: either the info record or
an exception with message `str(e)`.  The whole body runs inside
`try ... except Exception`, so the embedded function is total. -/

/-- The fixed metric set extracted per company (source order). -/
def metrics : List String :=
  ["shortName", "sector", "marketCap", "currentPrice",
   "revenueGrowth", "grossMargins", "profitMargins",
   "trailingPE", "dividendYield"]

/-- The f-string summary built by `compare_companies` (lines 32-39). -/
def mkInsight (company1_data company2_data : List (String × Json)) : String :=
  pyStr (dictGetD company1_data "shortName" (Json.str "N/A")) ++ " vs " ++
    pyStr (dictGetD company2_data "shortName" (Json.str "N/A")) ++ "\n" ++
  "Sector: " ++ pyStr (dictGetD company1_data "sector" (Json.str "N/A")) ++ " | " ++
    pyStr (dictGetD company2_data "sector" (Json.str "N/A")) ++ "\n" ++
  "Market Cap: " ++ pyStr (dictGetD company1_data "marketCap" (Json.str "N/A")) ++ " | " ++
    pyStr (dictGetD company2_data "marketCap" (Json.str "N/A")) ++ "\n" ++
  "Profit Margin: " ++ pyStr (dictGetD company1_data "profitMargins" (Json.str "N/A")) ++ " | " ++
    pyStr (dictGetD company2_data "profitMargins" (Json.str "N/A")) ++ "\n" ++
  "P/E Ratio: " ++ pyStr (dictGetD company1_data "trailingPE" (Json.str "N/A")) ++ " | " ++
    pyStr (dictGetD company2_data "trailingPE" (Json.str "N/A")) ++ "\n" ++
  "Dividend Yield: " ++ pyStr (dictGetD company1_data "dividendYield" (Json.str "N/A")) ++ " | " ++
    pyStr (dictGetD company2_data "dividendYield" (Json.str "N/A")) ++ "\n"

/-- The `Could not retrieve data` error message of lines 19 and 21. -/
def notRetrievedMsg (ticker : String) : String :=
  "Could not retrieve data for \x27" ++ ticker ++ "\x27. Please check the ticker symbol."

/-- `compare_companies` (src/utils/utils.py lines 7-48).  Both lookups run
before either record is checked, matching the source's statement order; an
oracle exception is converted by the `except` clause into the
`An unexpected error occurred` dictionary. -/
def compare_companies (source : String → Except String (List (String × Json)))
    (ticker1 ticker2 : String) : List (String × Json) :=
  if ticker1 == "" || ticker2 == "" then
    [("error", Json.str "Both ticker symbols must be provided.")]
  else
    match source ticker1 with
    | Except.error e => [("error", Json.str ("An unexpected error occurred: " ++ e))]
    | Except.ok c1 =>
      match source ticker2 with
      | Except.error e => [("error", Json.str ("An unexpected error occurred: " ++ e))]
      | Except.ok c2 =>
        if c1.isEmpty || !hasKey c1 "shortName" then
          [("error", Json.str (notRetrievedMsg ticker1))]
        else if c2.isEmpty || !hasKey c2 "shortName" then
          [("error", Json.str (notRetrievedMsg ticker2))]
        else
          let company1_data := metrics.map (fun m => (m, dictGetD c1 m (Json.str "N/A")))
          let company2_data := metrics.map (fun m => (m, dictGetD c2 m (Json.str "N/A")))
          [("insight", Json.str (mkInsight company1_data company2_data)),
           ("company1", Json.obj company1_data),
           ("company2", Json.obj company2_data)]

/-- The condition of claim C4 under which `compare_companies` reports an
error: an empty ticker, an exception from the data source, or a returned
record that is empty or lacks the canonical `shortName` field. -/
def fetchErr (source : String → Except String (List (String × Json)))
    (ticker1 ticker2 : String) : Bool :=
  ticker1 == "" || ticker2 == "" ||
    (match source ticker1 with
     | Except.error _ => true
     | Except.ok c1 =>
       match source ticker2 with
       | Except.error _ => true
       | Except.ok c2 =>
         c1.isEmpty || !hasKey c1 "shortName" || c2.isEmpty || !hasKey c2 "shortName")

/-! ## Tool registry and dispatch (src/utils/utils.py lines 51-72,
src/utils/data.py)

`handle_tool_calls` parses each call's serialized arguments with
`json.loads` (the `parse` oracle), resolves the tool name with
`globals().get(tool_name)` — the module's global symbol table, not the
registered tool list — calls it with the parsed keyword arguments, and
serializes the result; an unresolved name yields the empty dict. -/

/-- The `function` member of an OpenAI tool call. -/
structure ToolCallFunction where
  name : String
  arguments : String
deriving DecidableEq

/-- A model-issued tool call (`tc.id`, `tc.type`, `tc.function`). -/
structure ToolCall where
  id : String
  type : String
  function : ToolCallFunction
deriving DecidableEq

/-- One entry of the list `handle_tool_calls` returns: a dict
`{role: "tool", content, tool_call_id}` (the constant role is implicit). -/
structure ToolMsg where
  content : String
  tool_call_id : String
deriving DecidableEq

/-- The declared tool schema `compare_companies_json` (src/utils/data.py
lines 11-28). -/
structure ToolSchema where
  name : String
  description : String
  parameters : Json

/-- `compare_companies_json` from src/utils/data.py. -/
def compare_companies_json : ToolSchema :=
  ⟨"compare_companies",
   "Compare two companies\x27 financial performance using their stock ticker symbols. Returns key metrics including market cap, profit margins, P/E ratio, dividend yield, and more.",
   Json.obj
     [("type", Json.str "object"),
      ("properties", Json.obj
        [("ticker1", Json.obj
           [("type", Json.str "string"),
            ("description", Json.str "The stock ticker symbol of the first company (e.g., \x27AAPL\x27 for Apple)")]),
         ("ticker2", Json.obj
           [("type", Json.str "string"),
            ("description", Json.str "The stock ticker symbol of the second company (e.g., \x27MSFT\x27 for Microsoft)")])]),
      ("required", Json.arr [Json.str "ticker1", Json.str "ticker2"])]⟩

/-- `tools` (src/utils/utils.py lines 51-53): the registered tool list,
each entry `{type: "function", function: <schema>}`. -/
def tools : List (String × ToolSchema) := [("function", compare_companies_json)]

/-- The names of the registered tools — the allow-list claim C2 refers to. -/
def registeredToolNames : List String := tools.map (fun t => t.2.name)

/-- Keyword binding `compare_companies(**arguments)`: the parsed arguments
must be a dict over exactly the parameter names `ticker1`, `ticker2`,
otherwise the call raises `TypeError`.  A non-string ticker value binds
fine, but `yf.Ticker(...)` then fails inside the `try`, producing the
`unexpected error` dictionary (mirroring lines 15-16 running before any
type-sensitive use). -/
def callCompareCompanies (source : String → Except String (List (String × Json)))
    (args : Json) : Except String Json :=
  match args with
  | Json.obj fs =>
    if fs.all (fun p => p.1 == "ticker1" || p.1 == "ticker2") &&
        hasKey fs "ticker1" && hasKey fs "ticker2" then
      match dictGet? fs "ticker1", dictGet? fs "ticker2" with
      | some t1, some t2 =>
        if !pyTruthy t1 || !pyTruthy t2 then
          Except.ok (Json.obj [("error", Json.str "Both ticker symbols must be provided.")])
        else
          match t1, t2 with
          | Json.str s1, Json.str s2 => Except.ok (Json.obj (compare_companies source s1 s2))
          | _, _ =>
            Except.ok (Json.obj [("error", Json.str "An unexpected error occurred: ticker must be a string")])
      | _, _ => Except.error "TypeError: missing ticker argument"
    else Except.error "TypeError: compare_companies() got unexpected or missing keyword arguments"
  | _ => Except.error "TypeError: argument of type is not a mapping"

/-- Keyword binding `is_comparison_query(**arguments)`: exactly the keyword
`text`; `re.search` raises `TypeError` on a non-string argument. -/
def callIsComparisonQuery (args : Json) : Except String Json :=
  match args with
  | Json.obj [("text", Json.str s)] => Except.ok (Json.bool (is_comparison_query s))
  | Json.obj [("text", _)] => Except.error "TypeError: expected string or bytes-like object"
  | _ => Except.error "TypeError: is_comparison_query() got unexpected or missing keyword arguments"

/-- Module-level names of src/utils/utils.py that are bound but not
callable (imports, data, and the interpreter-supplied dunder bindings);
calling any of them raises `TypeError`. -/
def nonCallableGlobals : List String :=
  ["yf", "json", "re", "compare_companies_json", "tools",
   "__name__", "__doc__", "__package__", "__loader__",
   "__spec__", "__file__", "__cached__", "__builtins__"]

/-- The module global symbol table consulted by `globals().get(tool_name)`
(line 63): every module-level binding resolves, not only the registered
tool.  `handle_tool_calls` itself is modelled as raising when invoked with
keyword arguments parsed from JSON (iterating a JSON value as tool calls
fails immediately). -/
def utilsGlobals (source : String → Except String (List (String × Json)))
    (name : String) : Option (Json → Except String Json) :=
  if name == "compare_companies" then some (callCompareCompanies source)
  else if name == "is_comparison_query" then some callIsComparisonQuery
  else if name == "handle_tool_calls" then
    some (fun _ => Except.error "TypeError: handle_tool_calls() got unexpected keyword arguments")
  else if nonCallableGlobals.contains name then
    some (fun _ => Except.error "TypeError: object is not callable")
  else none

/-- `handle_tool_calls` (src/utils/utils.py lines 56-72).  For each call in
order: parse the serialized arguments (`json.loads`, the `parse` oracle),
resolve the name through the module globals, invoke the resolved callable
(or take `{}` when the name is unbound), serialize, and emit one result
dict carrying the call's id.  Any exception aborts the whole dispatch. -/
def handle_tool_calls (parse : String → Except String Json)
    (source : String → Except String (List (String × Json))) :
    List ToolCall → Except String (List ToolMsg)
  | [] => Except.ok []
  | tc :: rest =>
    match parse tc.function.arguments with
    | Except.error e => Except.error e
    | Except.ok args =>
      match
        (match utilsGlobals source tc.function.name with
         | some tool => tool args
         | none => Except.ok (Json.obj []))
      with
      | Except.error e => Except.error e
      | Except.ok result =>
        match jsonDumps result with
        | Except.error e => Except.error e
        | Except.ok content =>
          match handle_tool_calls parse source rest with
          | Except.error e => Except.error e
          | Except.ok results => Except.ok (⟨content, tc.id⟩ :: results)

/-! ## Conversation loop: `_chat_with_tools`
(src/agents/comparison_agent.py lines 179-240)

The outbound OpenAI message dicts are the inductive `ChatMessage`; the
chat-completion call is the `model` oracle of `Env`, which either returns
the first choice of a response or raises.  The `while not done` loop is
embedded with fuel; exhausting the fuel is the outcome `diverge`.  The
`ok` outcome additionally records the outbound message sequence as it
stood at the final (returning) model call, so that theorems can speak
about the transcript the loop ends with. -/

/-- `system_prompt` (src/utils/data.py), including the appended
`output_format` block. -/
def system_prompt : String :=
  "You are a helpful financial assistant that specializes in comparing companies.\n\nWhen a user asks to compare two companies, you should:\n1. Use the compare_companies function to fetch financial data\n2. Analyze the results and provide a clear, insightful comparison\n3. Highlight key differences and similarities\n4. Be objective and data-driven in your analysis\n\nAlways present information in a clear, structured format that\x27s easy to understand." ++
  "\n\nFormat your final response as follows:\n\nSummary:\nProvide a short 2–3 sentence overview comparing the entities (e.g., companies, sectors, etc.). \nFocus on overall performance, trends, or key insights.\n\nKey Points:\n* Highlight 3–5 bullet points comparing important metrics or differences.\n* Each point should start with either the entity name or the metric being compared.\n* Be specific — use data-driven phrasing if applicable.\n\nChoice:\nConclude with which entity performs better overall and briefly justify why.\n"

/-- One dict of the outbound OpenAI `messages` list, by shape: the system
prompt, a user turn, a plain assistant turn, the assistant tool-call
request dict rebuilt on lines 213-227, or a tool-result dict. -/
inductive ChatMessage where
  | system (content : String) : ChatMessage
  | user (content : String) : ChatMessage
  | assistant (content : Option String) : ChatMessage
  | assistantToolCalls (content : Option String) (tool_calls : List ToolCall) : ChatMessage
  | tool (content : String) (tool_call_id : String) : ChatMessage
deriving DecidableEq

/-- The message member of a chat-completion choice. -/
structure ModelMessage where
  content : Option String
  tool_calls : Option (List ToolCall)
deriving DecidableEq

/-- The first choice of a chat-completion response. -/
structure ModelChoice where
  finish_reason : String
  message : ModelMessage
deriving DecidableEq

/-- The external collaborators of the agent: the chat-completion call, the
`json.loads` parser, and the `yfinance` data source.  Each either returns
or raises. -/
structure Env where
  model : List ChatMessage → Except String ModelChoice
  parse : String → Except String Json
  source : String → Except String (List (String × Json))

/-- Claim C1's transcript invariant, as a scan: `tcm ms pend` holds when,
walking `ms` with `pend` the identifiers of tool-call requests still
awaiting results, every assistant tool-call message is immediately
followed by exactly one tool result per request, carrying the same
identifiers in order, and nothing is left pending at the end. -/
def tcm : List ChatMessage → List String → Bool
  | [], pend => pend.isEmpty
  | ChatMessage.tool _ tid :: rest, p :: ps => tid == p && tcm rest ps
  | ChatMessage.tool _ _ :: rest, [] => tcm rest []
  | ChatMessage.assistantToolCalls _ cs :: rest, pend =>
    pend.isEmpty && tcm rest (cs.map (fun c => c.id))
  | _ :: rest, pend => pend.isEmpty && tcm rest []

/-- Claim C1's invariant on a whole outbound sequence. -/
def toolCallsMatched (ms : List ChatMessage) : Bool := tcm ms []

/-- Python `key in content` for the `json.loads` result of a tool payload
(line 209): key membership for a dict, element equality for a list,
substring test for a string, `TypeError` otherwise. -/
def pyContains (j : Json) (k : String) : Except String Bool :=
  match j with
  | Json.obj fs => Except.ok (hasKey fs k)
  | Json.arr xs =>
    Except.ok (xs.any (fun x => match x with
      | Json.str s => s == k
      | _ => false))
  | Json.str s =>
    Except.ok ((List.range (s.toList.length + 1)).any
      (fun i => k.toList.isPrefixOf (s.toList.drop i)))
  | _ => Except.error "TypeError: argument of type is not iterable"

/-- Lines 206-210: re-parse each tool result's content and keep the last
payload containing an `insight` or `company1` key as the turn's structured
comparison data. -/
def extractData (parse : String → Except String Json) :
    List ToolMsg → Option Json → Except String (Option Json)
  | [], data => Except.ok data
  | r :: rest, data =>
    match parse r.content with
    | Except.error e => Except.error e
    | Except.ok content =>
      match pyContains content "insight" with
      | Except.error e => Except.error e
      | Except.ok b1 =>
        if b1 then extractData parse rest (some content)
        else
          match pyContains content "company1" with
          | Except.error e => Except.error e
          | Except.ok b2 => extractData parse rest (if b2 then some content else data)

/-- Outcome of `_chat_with_tools`: a normal return (assistant content,
captured comparison data, the caller's history with the new user/assistant
turns appended, and — for specification purposes — the outbound sequence at
the returning model call), an exception, or fuel exhaustion. -/
inductive ChatOutcome where
  | ok (content : Option String) (data : Option Json)
      (history : List ChatMessage) (final : List ChatMessage) : ChatOutcome
  | exn (e : String) : ChatOutcome
  | diverge : ChatOutcome

/-- The `while not done` loop of `_chat_with_tools` (lines 191-240).  On a
`tool_calls` finish reason the requested calls are dispatched, the
comparison data re-extracted, and the assistant tool-call message plus all
results appended before looping; otherwise the loop appends the user and
assistant turns to the caller's history and returns. -/
def chatLoop (env : Env) : Nat → List ChatMessage → Option Json → String →
    List ChatMessage → ChatOutcome
  | 0, _, _, _, _ => ChatOutcome.diverge
  | fuel + 1, msgs, data, message, history =>
    match env.model msgs with
    | Except.error e => ChatOutcome.exn e
    | Except.ok choice =>
      if choice.finish_reason == "tool_calls" then
        match choice.message.tool_calls with
        | none => ChatOutcome.exn "TypeError: NoneType object is not iterable"
        | some tcs =>
          match handle_tool_calls env.parse env.source tcs with
          | Except.error e => ChatOutcome.exn e
          | Except.ok results =>
            match extractData env.parse results data with
            | Except.error e => ChatOutcome.exn e
            | Except.ok data2 =>
              chatLoop env fuel
                (msgs ++ ChatMessage.assistantToolCalls choice.message.content tcs ::
                  results.map (fun r => ChatMessage.tool r.content r.tool_call_id))
                data2 message history
      else
        ChatOutcome.ok choice.message.content data
          (history ++ [ChatMessage.user message, ChatMessage.assistant choice.message.content])
          msgs

/-- The initial outbound sequence of `_chat_with_tools` (lines 184-186):
system prompt, prior history, new user message. -/
def chatInitMessages (message : String) (history : List ChatMessage) : List ChatMessage :=
  ChatMessage.system system_prompt :: (history ++ [ChatMessage.user message])

/-- `_chat_with_tools` (src/agents/comparison_agent.py lines 179-240). -/
def _chat_with_tools (env : Env) (fuel : Nat) (message : String)
    (history : List ChatMessage) : ChatOutcome :=
  chatLoop env fuel (chatInitMessages message history) none message history

/-- `Env` with the model oracle wrapped by a transcript check: the wrapped
oracle answers exactly like the original on outbound sequences satisfying
claim C1's invariant and raises a distinguished error otherwise.  Claim C1
states that the loop cannot tell the two apart. -/
def guardEnv (env : Env) : Env :=
  ⟨fun msgs => if toolCallsMatched msgs then env.model msgs
               else Except.error "UNMATCHED TOOL CALLS",
   env.parse, env.source⟩

/-! ## A2A data model and request adapter
(src/agents/comparison_agent.py lines 28-177) -/

/-- Modelled from the spec: the pydantic class `MessagePart` of
models/a2a.py, which is not under src/.  Its fields are pinned by the
spec's Message shape (§3, §6) and by every construction site in src/:
a `kind` discriminator, an optional `text` string, an optional `data`
payload. -/
structure MessagePart where
  kind : String
  text : Option String
  data : Option Json

/-- Modelled from the spec: the pydantic class `A2AMessage` of
models/a2a.py (not under src/): `role`, ordered `parts`, optional
`taskId`, as used at every construction site in src/. -/
structure A2AMessage where
  role : String
  parts : List MessagePart
  taskId : Option String

/-- Modelled from the spec: the pydantic class `Artifact` of models/a2a.py
(not under src/): a named output payload (§3 TaskOutcome artifacts). -/
structure Artifact where
  name : String
  parts : List MessagePart

/-- Modelled from the spec: the pydantic class `TaskStatus` of
models/a2a.py (not under src/): final state plus response message. -/
structure TaskStatus where
  state : String
  message : A2AMessage

/-- Modelled from the spec: the pydantic class `TaskResult` of
models/a2a.py (not under src/).  The spec's TaskOutcome shape (§3) lists
`task_id`, `context_id`, `final_state`, `response_message`, `artifacts`;
all three construction sites in `process_messages` additionally pass a
`history` field, so the class declares one (claim C9). -/
structure TaskResult where
  id : String
  contextId : String
  status : TaskStatus
  artifacts : List Artifact
  history : List A2AMessage

/-- Reverse scan of a nested historical-data list (lines 169-175): the
last dict entry of kind `text` whose text is truthy and starts with
neither `sorry` nor `<`; entries failing the filter are skipped.  A truthy
non-string `text` value makes `startswith` raise `AttributeError`. -/
def revScanData : List Json → Except String (Option String)
  | [] => Except.ok none
  | item :: rest =>
    match item with
    | Json.obj fields =>
      if (match dictGet? fields "kind" with
          | some (Json.str k) => k == "text"
          | _ => false) then
        match dictGetD fields "text" (Json.str "") with
        | Json.str t =>
          if !(t == "") && !pyStarts t "sorry" && !pyStarts t "<" then
            Except.ok (some (pyStrip t))
          else revScanData rest
        | other =>
          if pyTruthy other then
            Except.error "AttributeError: object has no attribute startswith"
          else revScanData rest
      else revScanData rest
    | _ => revScanData rest

/-- One iteration of the part loop of `_extract_latest_text`
(lines 161-175), updating the running `latest_text`. -/
def extractStep (latest : String) (p : MessagePart) : Except String String :=
  if p.kind == "text" && (match p.text with | some t => !(t == "") | none => false) then
    match p.text with
    | some t => Except.ok (pyStrip t)
    | none => Except.ok latest
  else if p.kind == "data" && (match p.data with | some d => pyTruthy d | none => false) then
    match p.data with
    | some (Json.arr items) =>
      (match revScanData items.reverse with
       | Except.error e => Except.error e
       | Except.ok (some t) => Except.ok t
       | Except.ok none => Except.ok latest)
    | _ => Except.ok latest
  else Except.ok latest

/-- The part loop of `_extract_latest_text`, folding `extractStep` over the
parts in order. -/
def extractParts (latest : String) : List MessagePart → Except String String
  | [] => Except.ok latest
  | p :: rest =>
    match extractStep latest p with
    | Except.error e => Except.error e
    | Except.ok latest2 => extractParts latest2 rest

/-- `_extract_latest_text` (src/agents/comparison_agent.py lines 154-177). -/
def _extract_latest_text (message : A2AMessage) : Except String String :=
  extractParts "" message.parts

/-- The fixed instructional refusal text of lines 57-64. -/
def refusalText : String :=
  "This AI Agent is designed only for comparing two companies.\n\nExample inputs:\n- Compare Apple and Microsoft\n- How does Tesla compare to Ford?\n- Which is better, Google or Amazon?\n\nPlease rephrase your request to include two companies for comparison." 

/-- Python `x or fresh` for the optional identifiers of lines 38-39: an
absent or empty (falsy) identifier is replaced by a fresh `uuid4` string,
supplied as an oracle argument. -/
def pyOrFresh (x : Option String) (fresh : String) : String :=
  match x with
  | some s => if s == "" then fresh else s
  | none => fresh

/-- Outcome of a Python call: normal return, exception, or (for the
fuel-limited chat loop embedding only) divergence. -/
inductive PyResult (α : Type) where
  | ok (a : α) : PyResult α
  | exn (e : String) : PyResult α
  | diverge : PyResult α

/-- The per-context conversation store `self.conversations`. -/
def ConvMap : Type := List (String × List ChatMessage)

/-- `process_messages` (src/agents/comparison_agent.py lines 28-152),
with the agent's `self.conversations` map threaded explicitly and the
two `uuid4()` calls supplied as oracle arguments.  The input-validation
errors of lines 46-53 raise; the refusal path of lines 56-81 returns a
completed outcome without touching the chat loop or the store; the
`try` of lines 84-152 converts any chat-loop exception into a failed
outcome, leaving the store unchanged (the in-place history mutation the
loop performs happens only on its return path, before which no exception
can occur after it). -/
def process_messages (env : Env) (fuel : Nat) (conversations : ConvMap)
    (messages : List A2AMessage) (context_id task_id : Option String)
    (config : Option Json) (freshCtx freshTask : String) :
    PyResult (TaskResult × ConvMap) :=
  let ctx := pyOrFresh context_id freshCtx
  let tid := pyOrFresh task_id freshTask
  let history := lookupD conversations ctx []
  match messages.getLast? with
  | none => PyResult.exn "No message provided"
  | some user_message =>
    match _extract_latest_text user_message with
    | Except.error e => PyResult.exn e
    | Except.ok user_text =>
      if user_text == "" then PyResult.exn "No text content found in message"
      else if !is_comparison_query user_text then
        let rm : A2AMessage := ⟨"agent", [⟨"text", some refusalText, none⟩], some tid⟩
        PyResult.ok (⟨tid, ctx, ⟨"completed", rm⟩, [], messages ++ [rm]⟩, conversations)
      else
        match _chat_with_tools env fuel user_text history with
        | ChatOutcome.diverge => PyResult.diverge
        | ChatOutcome.exn e =>
          let msg := "An error occurred while processing your request: " ++ e
          let rm : A2AMessage := ⟨"agent", [⟨"text", some msg, none⟩], some tid⟩
          PyResult.ok (⟨tid, ctx, ⟨"failed", rm⟩, [], messages ++ [rm]⟩, conversations)
        | ChatOutcome.ok content data newHistory _ =>
          let conversations2 := setKey conversations ctx newHistory
          let rm : A2AMessage := ⟨"agent", [⟨"text", content, none⟩], some tid⟩
          let artifacts :=
            Artifact.mk "comparison_text" [⟨"text", content, none⟩] ::
              (match data with
               | some d =>
                 if pyTruthy d then [Artifact.mk "comparison_data" [⟨"data", none, some d⟩]]
                 else []
               | none => [])
          PyResult.ok
            (⟨tid, ctx, ⟨"completed", rm⟩, artifacts, messages ++ [rm]⟩, conversations2)

/-! ## Request/response adapter: the `/a2a/compare` endpoint
(src/main.py lines 42-107)

The handler body is one big `try`: the parsed request body (or the
`request.json()` failure) comes in as an `Except String Json`.  The
`except` clause builds the -32603 response — but it evaluates
`body.get("id")` whenever `body` is bound, which itself raises when the
body is valid JSON yet not an object, letting the exception escape the
handler (`HttpOutcome.raised`). -/

/-- What the endpoint handler produces: an HTTP response with a status and
JSON body, an exception escaping the handler, or divergence inherited from
the fuel-limited chat loop. -/
inductive HttpOutcome where
  | resp (status : Nat) (body : Json) : HttpOutcome
  | raised (e : String) : HttpOutcome
  | diverge : HttpOutcome

/-- The HTTP 400 body of lines 51-61 (JSON-RPC error -32600). -/
def invalidRequestBody (idv : Json) : Json :=
  Json.obj
    [("jsonrpc", Json.str "2.0"), ("id", idv),
     ("error", Json.obj
       [("code", Json.num (-32600)),
        ("message", Json.str "Invalid Request: jsonrpc must be \x272.0\x27 and id is required")])]

/-- The HTTP 500 body of lines 96-107 (JSON-RPC error -32603 with the
exception text as detail). -/
def internalErrorBody (idv : Json) (details : String) : Json :=
  Json.obj
    [("jsonrpc", Json.str "2.0"), ("id", idv),
     ("error", Json.obj
       [("code", Json.num (-32603)),
        ("message", Json.str "Internal error"),
        ("data", Json.obj [("details", Json.str details)])])]

/-- The envelope check of line 50: `body.get("jsonrpc") == "2.0"`. -/
def jsonrpcOk (fields : List (String × Json)) : Bool :=
  match dictGet? fields "jsonrpc" with
  | some (Json.str s) => s == "2.0"
  | _ => false

/-- Modelled from the spec: the pydantic class `JSONRPCRequest` of
models/a2a.py (not under src/).  Per §6 the envelope is
`{jsonrpc: "2.0", id, method, params}`; `method` is modelled as an
arbitrary string and `params` as an arbitrary optional JSON value,
validated only where a method branch consumes it. -/
structure RpcRequest where
  id : Json
  method : String
  params : Option Json

/-- Modelled from the spec: validation performed by
`JSONRPCRequest(**body)` (line 63); a missing or non-string method is a
pydantic validation error, which the handler's `except` turns into the
-32603 response. -/
def parseRpcRequest (fields : List (String × Json)) : Except String RpcRequest :=
  match dictGet? fields "method" with
  | some (Json.str m) =>
    Except.ok ⟨dictGetD fields "id" Json.null, m, dictGet? fields "params"⟩
  | some _ => Except.error "validation error: method must be a string"
  | none => Except.error "validation error: method field required"

/-- Modelled from the spec: parsing one inbound content part into the
pydantic `MessagePart` (§3, §6). -/
def partOfJson : Json → Except String MessagePart
  | Json.obj fs =>
    (match dictGet? fs "kind" with
     | some (Json.str k) =>
       match dictGet? fs "text" with
       | some (Json.str t) => Except.ok ⟨k, some t, dictGet? fs "data"⟩
       | some Json.null => Except.ok ⟨k, none, dictGet? fs "data"⟩
       | none => Except.ok ⟨k, none, dictGet? fs "data"⟩
       | some _ => Except.error "validation error: part text must be a string"
     | _ => Except.error "validation error: part kind must be a string")
  | _ => Except.error "validation error: part must be an object"

/-- Modelled from the spec: parsing a list of inbound content parts. -/
def partsOfJson : List Json → Except String (List MessagePart)
  | [] => Except.ok []
  | j :: rest =>
    match partOfJson j with
    | Except.error e => Except.error e
    | Except.ok p =>
      match partsOfJson rest with
      | Except.error e => Except.error e
      | Except.ok ps => Except.ok (p :: ps)

/-- Modelled from the spec: parsing one inbound Message into the pydantic
`A2AMessage` (§3, §6). -/
def messageOfJson : Json → Except String A2AMessage
  | Json.obj fs =>
    (match dictGet? fs "role" with
     | some (Json.str r) =>
       match dictGet? fs "parts" with
       | some (Json.arr ps) =>
         (match partsOfJson ps with
          | Except.error e => Except.error e
          | Except.ok parts =>
            match dictGet? fs "taskId" with
            | some (Json.str t) => Except.ok ⟨r, parts, some t⟩
            | _ => Except.ok ⟨r, parts, none⟩)
       | _ => Except.error "validation error: message parts must be a list"
     | _ => Except.error "validation error: message role must be a string")
  | _ => Except.error "validation error: message must be an object"

/-- Modelled from the spec: parsing a list of inbound Messages. -/
def messagesOfJson : List Json → Except String (List A2AMessage)
  | [] => Except.ok []
  | j :: rest =>
    match messageOfJson j with
    | Except.error e => Except.error e
    | Except.ok m =>
      match messagesOfJson rest with
      | Except.error e => Except.error e
      | Except.ok ms => Except.ok (m :: ms)

/-- The method dispatch of lines 65-77: `message/send` wraps the single
`params.message` (with optional `params.configuration`); `execute` takes
`params.messages` plus optional `contextId`/`taskId`; any other method
leaves the message list empty and all identifiers unset. -/
def extractCall (rpc : RpcRequest) :
    Except String (List A2AMessage × Option String × Option String × Option Json) :=
  if rpc.method == "message/send" then
    match rpc.params with
    | some (Json.obj pf) =>
      (match dictGet? pf "message" with
       | some mj =>
         (match messageOfJson mj with
          | Except.error e => Except.error e
          | Except.ok m => Except.ok ([m], none, none, dictGet? pf "configuration"))
       | none => Except.error "validation error: params.message required")
    | _ => Except.error "validation error: params must be an object"
  else if rpc.method == "execute" then
    match rpc.params with
    | some (Json.obj pf) =>
      (match dictGet? pf "messages" with
       | some (Json.arr mjs) =>
         (match messagesOfJson mjs with
          | Except.error e => Except.error e
          | Except.ok ms =>
            Except.ok
              (ms,
               (match dictGet? pf "contextId" with
                | some (Json.str c) => some c
                | _ => none),
               (match dictGet? pf "taskId" with
                | some (Json.str t) => some t
                | _ => none),
               none))
       | _ => Except.error "validation error: params.messages required")
    | _ => Except.error "validation error: params must be an object"
  else Except.ok ([], none, none, none)

/-- Modelled from the spec: `model_dump` of a `MessagePart`. -/
def messagePartJson (p : MessagePart) : Json :=
  Json.obj
    [("kind", Json.str p.kind),
     ("text", match p.text with | some t => Json.str t | none => Json.null),
     ("data", p.data.getD Json.null)]

/-- Modelled from the spec: `model_dump` of an `A2AMessage`. -/
def a2aMessageJson (m : A2AMessage) : Json :=
  Json.obj
    [("role", Json.str m.role),
     ("parts", Json.arr (m.parts.map messagePartJson)),
     ("taskId", match m.taskId with | some t => Json.str t | none => Json.null)]

/-- Modelled from the spec: `model_dump` of a `TaskResult` inside the
success response of lines 88-93. -/
def taskResultJson (r : TaskResult) : Json :=
  Json.obj
    [("id", Json.str r.id),
     ("contextId", Json.str r.contextId),
     ("status", Json.obj
       [("state", Json.str r.status.state),
        ("message", a2aMessageJson r.status.message)]),
     ("artifacts", Json.arr (r.artifacts.map (fun a =>
       Json.obj [("name", Json.str a.name),
                 ("parts", Json.arr (a.parts.map messagePartJson))]))),
     ("history", Json.arr (r.history.map a2aMessageJson))]

/-- The `/a2a/compare` handler `a2a_endpoint` (src/main.py lines 42-107).
`rawBody` is the outcome of `await request.json()`.  When the body is
valid JSON but not an object, `body.get("jsonrpc")` raises
`AttributeError` inside the `try`, and the `except` clause — which then
evaluates `body.get("id")` because `body` is bound — raises the same
error again, escaping the handler without any JSON-RPC response. -/
def a2a_endpoint (env : Env) (fuel : Nat) (conversations : ConvMap)
    (freshCtx freshTask : String) (rawBody : Except String Json) :
    HttpOutcome × ConvMap :=
  match rawBody with
  | Except.error e => (HttpOutcome.resp 500 (internalErrorBody Json.null e), conversations)
  | Except.ok (Json.obj fields) =>
    if !jsonrpcOk fields || !hasKey fields "id" then
      (HttpOutcome.resp 400 (invalidRequestBody (dictGetD fields "id" Json.null)),
       conversations)
    else
      (match parseRpcRequest fields with
       | Except.error e =>
         (HttpOutcome.resp 500 (internalErrorBody (dictGetD fields "id" Json.null) e),
          conversations)
       | Except.ok rpc =>
         match extractCall rpc with
         | Except.error e =>
           (HttpOutcome.resp 500 (internalErrorBody (dictGetD fields "id" Json.null) e),
            conversations)
         | Except.ok (msgs, ctxo, tido, cfg) =>
           match process_messages env fuel conversations msgs ctxo tido cfg freshCtx freshTask with
           | PyResult.exn e =>
             (HttpOutcome.resp 500 (internalErrorBody (dictGetD fields "id" Json.null) e),
              conversations)
           | PyResult.diverge => (HttpOutcome.diverge, conversations)
           | PyResult.ok (r, conversations2) =>
             (HttpOutcome.resp 200
               (Json.obj [("jsonrpc", Json.str "2.0"), ("id", rpc.id),
                          ("result", taskResultJson r)]),
              conversations2))
  | Except.ok _ =>
    (HttpOutcome.raised "AttributeError: object has no attribute get", conversations)

/-! ## Concrete instances used by witnesses and counterexamples -/

/-- An environment whose collaborators all raise, exercising failure
paths. -/
def envBoom : Env :=
  ⟨fun _ => Except.error "boom",
   fun _ => Except.error "parse failure",
   fun _ => Except.error "offline"⟩

/-- An environment whose model immediately returns a final answer. -/
def envStop : Env :=
  ⟨fun _ => Except.ok ⟨"stop", ⟨some "done", none⟩⟩,
   fun _ => Except.error "parse failure",
   fun _ => Except.error "offline"⟩

/-- An inbound message whose only part is the text `hello`. -/
def helloMsg : A2AMessage := ⟨"user", [⟨"text", some "hello", none⟩], none⟩

/-- An inbound message whose only part is the text `compare a and b`. -/
def compareMsg : A2AMessage := ⟨"user", [⟨"text", some "compare a and b", none⟩], none⟩

/-- A message with a non-empty direct text part followed by a nested
historical-data part holding a later text entry. -/
def c3msg : A2AMessage :=
  ⟨"user",
   [⟨"text", some "hello", none⟩,
    ⟨"data", none,
     some (Json.arr [Json.obj [("kind", Json.str "text"), ("text", Json.str "world")]])⟩],
   none⟩

/-- A single nested historical-data part, used ahead of a direct text part. -/
def c3ps : List MessagePart :=
  [⟨"data", none,
    some (Json.arr [Json.obj [("kind", Json.str "text"), ("text", Json.str "old")]])⟩]

/-- A model-issued tool call naming `is_comparison_query` — a module-level
function that is not a registered tool. -/
def cexToolCall : ToolCall :=
  ⟨"call_1", "function",
   ⟨"is_comparison_query", "\x7b\x22text\x22: \x22compare a and b\x22\x7d"⟩⟩

/-- A `json.loads` oracle returning the parsed arguments of `cexToolCall`. -/
def cexParse : String → Except String Json :=
  fun _ => Except.ok (Json.obj [("text", Json.str "compare a and b")])

/-- A data source with records for two tickers, one of them missing some
metrics. -/
def demoSource : String → Except String (List (String × Json)) :=
  fun t =>
    if t == "AAPL" then
      Except.ok
        [("shortName", Json.str "Apple Inc."), ("sector", Json.str "Technology"),
         ("marketCap", Json.num 3000000000000), ("currentPrice", Json.num 190),
         ("revenueGrowth", Json.num 0), ("grossMargins", Json.num 0),
         ("profitMargins", Json.num 0), ("trailingPE", Json.num 29),
         ("dividendYield", Json.num 0)]
    else if t == "MSFT" then
      Except.ok [("shortName", Json.str "Microsoft Corporation")]
    else Except.ok []

/-! ## Theorems -/

/-- Unfolding lemma: appending a transcript whose pending list it fully
discharges preserves the `tcm` scan. -/
theorem tcm_append (xs : List ChatMessage) :
    ∀ (pend : List String) (ys : List ChatMessage),
      tcm xs pend = true → tcm ys [] = true → tcm (xs ++ ys) pend = true := by
  induction xs with
  | nil =>
    intro pend ys h1 h2
    simp only [tcm] at h1
    rw [List.isEmpty_iff] at h1
    subst h1
    simpa using h2
  | cons m rest ih =>
    intro pend ys h1 h2
    cases m with
    | system c =>
      simp only [tcm, Bool.and_eq_true] at h1
      simp only [List.cons_append, tcm, Bool.and_eq_true]
      exact ⟨h1.1, ih [] ys h1.2 h2⟩
    | user c =>
      simp only [tcm, Bool.and_eq_true] at h1
      simp only [List.cons_append, tcm, Bool.and_eq_true]
      exact ⟨h1.1, ih [] ys h1.2 h2⟩
    | assistant c =>
      simp only [tcm, Bool.and_eq_true] at h1
      simp only [List.cons_append, tcm, Bool.and_eq_true]
      exact ⟨h1.1, ih [] ys h1.2 h2⟩
    | assistantToolCalls c cs =>
      simp only [tcm, Bool.and_eq_true] at h1
      simp only [List.cons_append, tcm, Bool.and_eq_true]
      exact ⟨h1.1, ih _ ys h1.2 h2⟩
    | tool c tid =>
      cases pend with
      | nil =>
        simp only [tcm] at h1
        simp only [List.cons_append, tcm]
        exact ih [] ys h1 h2
      | cons p ps =>
        simp only [tcm, Bool.and_eq_true] at h1
        simp only [List.cons_append, tcm, Bool.and_eq_true]
        exact ⟨h1.1, ih ps ys h1.2 h2⟩

/-- A block of tool-result messages whose identifiers equal the pending
list, in order, discharges it. -/
theorem tcm_results (rs : List ToolMsg) :
    ∀ (pend : List String), rs.map (fun r => r.tool_call_id) = pend →
      tcm (rs.map (fun r => ChatMessage.tool r.content r.tool_call_id)) pend = true := by
  induction rs with
  | nil =>
    intro pend h
    simp only [List.map_nil] at h
    subst h
    simp [tcm]
  | cons r rest ih =>
    intro pend h
    simp only [List.map_cons] at h
    subst h
    simp only [List.map_cons, tcm, Bool.and_eq_true]
    exact ⟨by simp, ih _ rfl⟩

/-- `handle_tool_calls` emits exactly one result per call, in order,
carrying the calls' identifiers. -/
theorem handle_tool_calls_ids (parse : String → Except String Json)
    (source : String → Except String (List (String × Json))) :
    ∀ (tcs : List ToolCall) (rs : List ToolMsg),
      handle_tool_calls parse source tcs = Except.ok rs →
      rs.map (fun r => r.tool_call_id) = tcs.map (fun c => c.id) := by
  intro tcs
  induction tcs with
  | nil =>
    intro rs h
    simp only [handle_tool_calls] at h
    cases h
    simp
  | cons tc rest ih =>
    intro rs h
    simp only [handle_tool_calls] at h
    cases hp : parse tc.function.arguments with
    | error e => simp only [hp] at h; cases h
    | ok args =>
      simp only [hp] at h
      cases hd : (match utilsGlobals source tc.function.name with
                  | some tool => tool args
                  | none => Except.ok (Json.obj [])) with
      | error e => simp only [hd] at h; cases h
      | ok result =>
        simp only [hd] at h
        cases hs : jsonDumps result with
        | error e => simp only [hs] at h; cases h
        | ok content =>
          simp only [hs] at h
          cases hr : handle_tool_calls parse source rest with
          | error e => simp only [hr] at h; cases h
          | ok results =>
            simp only [hr] at h
            cases h
            simp only [List.map_cons]
            rw [ih results hr]

/-- Main invariant of the conversation loop: starting from a matched
outbound sequence, (a) the loop behaves identically whether or not the
model oracle is guarded by the transcript check — i.e. the model is only
ever invoked on matched sequences — and (b) the sequence recorded at a
normal return is matched. -/
theorem chatLoop_tcm (fuel : Nat) :
    ∀ (env : Env) (msgs : List ChatMessage) (data : Option Json)
      (message : String) (history : List ChatMessage),
      toolCallsMatched msgs = true →
      (chatLoop (guardEnv env) fuel msgs data message history =
         chatLoop env fuel msgs data message history ∧
       ∀ c d h fin, chatLoop env fuel msgs data message history = ChatOutcome.ok c d h fin →
         toolCallsMatched fin = true) := by
  induction fuel with
  | zero =>
    intro env msgs data message history hm
    exact ⟨rfl, fun c d h fin hh => by simp [chatLoop] at hh⟩
  | succ n ih =>
    intro env msgs data message history hm
    have hguard : (guardEnv env).model msgs = env.model msgs := by
      simp [guardEnv, hm]
    cases hmod : env.model msgs with
    | error e =>
      constructor
      · simp only [chatLoop]
        rw [hguard, hmod]
      · intro c d h fin hh
        simp only [chatLoop, hmod] at hh
        cases hh
    | ok choice =>
      cases hb : (choice.finish_reason == "tool_calls") with
      | false =>
        constructor
        · simp only [chatLoop]
          rw [hguard, hmod]
          simp [hb]
        · intro c d h fin hh
          simp only [chatLoop, hmod, hb] at hh
          simp only [Bool.false_eq_true, if_false] at hh
          cases hh
          exact hm
      | true =>
        cases htc : choice.message.tool_calls with
        | none =>
          constructor
          · simp only [chatLoop]
            rw [hguard, hmod]
            simp [hb, htc]
          · intro c d h fin hh
            simp only [chatLoop, hmod, hb, htc, eq_self_iff_true, if_true] at hh
            cases hh
        | some tcs =>
          cases hh2 : handle_tool_calls env.parse env.source tcs with
          | error e =>
            constructor
            · have hps : (guardEnv env).parse = env.parse := rfl
              have hss : (guardEnv env).source = env.source := rfl
              simp only [chatLoop, hguard, hmod, hb, htc, hps, hss, hh2,
                eq_self_iff_true, if_true]
            · intro c d h fin hh
              simp only [chatLoop, hmod, hb, htc, hh2, eq_self_iff_true, if_true] at hh
              cases hh
          | ok results =>
            cases hx : extractData env.parse results data with
            | error e =>
              constructor
              · have hps : (guardEnv env).parse = env.parse := rfl
                have hss : (guardEnv env).source = env.source := rfl
                simp only [chatLoop, hguard, hmod, hb, htc, hps, hss, hh2, hx,
                  eq_self_iff_true, if_true]
              · intro c d h fin hh
                simp only [chatLoop, hmod, hb, htc, hh2, hx, eq_self_iff_true, if_true] at hh
                cases hh
            | ok data2 =>
              have hm2 : toolCallsMatched
                  (msgs ++ ChatMessage.assistantToolCalls choice.message.content tcs ::
                    results.map (fun r => ChatMessage.tool r.content r.tool_call_id)) = true := by
                apply tcm_append _ _ _ hm
                simp only [tcm, List.isEmpty_nil, Bool.true_and]
                exact tcm_results results _ (handle_tool_calls_ids env.parse env.source tcs results hh2)
              have hrec := ih env
                (msgs ++ ChatMessage.assistantToolCalls choice.message.content tcs ::
                  results.map (fun r => ChatMessage.tool r.content r.tool_call_id))
                data2 message history hm2
              constructor
              · have hps : (guardEnv env).parse = env.parse := rfl
                have hss : (guardEnv env).source = env.source := rfl
                simp only [chatLoop, hguard, hmod, hb, htc, hps, hss, hh2, hx,
                  eq_self_iff_true, if_true]
                exact hrec.1
              · intro c d h fin hh
                simp only [chatLoop, hmod, hb, htc, hh2, hx, eq_self_iff_true, if_true] at hh
                exact hrec.2 c d h fin hh

/-- Claim C1: the conversation loop `_chat_with_tools` never hands an
outbound sequence to the model — and never returns — while an assistant
tool-call request lacks its matching results: starting from a history free
of tool-call scaffolding (so the initial sequence is matched), the loop is
indistinguishable from one whose model oracle rejects any unmatched
sequence, and the outbound sequence at a normal return is matched — every
`ToolCallRequest` appended is immediately followed by exactly one
`ToolCallResult` with the same identifier, in order, before the next model
invocation or return. -/
theorem C1_tool_calls_matched (env : Env) (fuel : Nat) (message : String)
    (history : List ChatMessage)
    (hm : toolCallsMatched (chatInitMessages message history) = true) :
    _chat_with_tools (guardEnv env) fuel message history =
      _chat_with_tools env fuel message history ∧
    ∀ c d h fin, _chat_with_tools env fuel message history = ChatOutcome.ok c d h fin →
      toolCallsMatched fin = true :=
  chatLoop_tcm fuel env (chatInitMessages message history) none message history hm

/-- Witness for C1 at a concrete environment: a model that immediately
finishes; the guarded and unguarded loops agree and the recorded final
sequence is matched. -/
theorem C1_tool_calls_matched_witness :
    _chat_with_tools (guardEnv envStop) 1 "hi" [] = _chat_with_tools envStop 1 "hi" [] ∧
    toolCallsMatched [ChatMessage.system system_prompt, ChatMessage.user "hi"] = true :=
  ⟨(C1_tool_calls_matched envStop 1 "hi" [] (by decide)).1,
   (C1_tool_calls_matched envStop 1 "hi" [] (by decide)).2 (some "done") none
     [ChatMessage.user "hi", ChatMessage.assistant (some "done")]
     [ChatMessage.system system_prompt, ChatMessage.user "hi"] rfl⟩

/-- Counterexample to claim C2 as stated: the model-issued tool name
`is_comparison_query` is not in the registered tool allow-list, yet
`handle_tool_calls` resolves it through the module globals and invokes it —
the produced result content is `true`, not the empty object the claim
requires for every non-allow-listed name. -/
theorem C2_counterexample :
    ("is_comparison_query" ∈ registeredToolNames → False) ∧
    handle_tool_calls cexParse (fun _ => Except.error "offline") [cexToolCall] =
      Except.ok [⟨"true", "call_1"⟩] ∧
    ("true" : String) ≠ "\x7b\x7d" :=
  ⟨by decide, rfl, by decide⟩

/-- Claim C2 amended: tool dispatch resolves the name through the module's
global symbol table (`globals().get`), which binds more callables than the
registered tool list; a name unbound in the module globals — rather than
one missing from the allow-list — yields a `ToolCallResult` whose content
is the empty object. -/
theorem C2_unbound_name_empty_object (parse : String → Except String Json)
    (source : String → Except String (List (String × Json)))
    (tc : ToolCall) (args : Json)
    (hp : parse tc.function.arguments = Except.ok args)
    (hu : utilsGlobals source tc.function.name = none) :
    handle_tool_calls parse source [tc] = Except.ok [⟨"\x7b\x7d", tc.id⟩] := by
  simp only [handle_tool_calls, hp, hu]
  rfl

/-- Witness for the amended C2 at a concrete unbound tool name. -/
theorem C2_unbound_name_empty_object_witness :
    handle_tool_calls cexParse (fun _ => Except.error "offline")
      [⟨"id9", "function", ⟨"nosuch_tool", "\x7b\x7d"⟩⟩] =
      Except.ok [⟨"\x7b\x7d", "id9"⟩] :=
  C2_unbound_name_empty_object cexParse (fun _ => Except.error "offline")
    ⟨"id9", "function", ⟨"nosuch_tool", "\x7b\x7d"⟩⟩
    (Json.obj [("text", Json.str "compare a and b")]) rfl rfl

/-- Counterexample to claim C3 as stated: `c3msg` contains a non-empty
direct text part (`hello`), yet extraction returns the entry of the nested
data part that follows it (`world`) — the nested part is scanned, and its
result overwrites the direct text, even though a direct text part is
present. -/
theorem C3_counterexample :
    c3msg.parts.head? = some ⟨"text", some "hello", none⟩ ∧
    _extract_latest_text c3msg = Except.ok "world" ∧
    ("world" : String) ≠ "hello" :=
  ⟨rfl, rfl, by decide⟩

/-- The part scan distributes over list append. -/
theorem extractParts_append (xs : List MessagePart) :
    ∀ (ys : List MessagePart) (acc : String),
      extractParts acc (xs ++ ys) =
        (match extractParts acc xs with
         | Except.error e => Except.error e
         | Except.ok acc2 => extractParts acc2 ys) := by
  induction xs with
  | nil => intro ys acc; simp [extractParts]
  | cons p rest ih =>
    intro ys acc
    simp only [List.cons_append, extractParts]
    cases extractStep acc p with
    | error e => rfl
    | ok acc2 => exact ih ys acc2

/-- Claim C3 amended: extraction scans every part in order and the last
part that yields text wins, so a nested data part occurring after a direct
text part overwrites it; in particular, whenever a non-empty direct text
part is the final part of the message (and the earlier parts scan without
raising), the extracted text is that part's stripped text. -/
theorem C3_last_part_wins (role : String) (tid : Option String)
    (ps : List MessagePart) (acc s : String)
    (hps : extractParts "" ps = Except.ok acc) (hs : s ≠ "") :
    _extract_latest_text ⟨role, ps ++ [⟨"text", some s, none⟩], tid⟩ =
      Except.ok (pyStrip s) := by
  have hb : (s == "") = false := by
    cases hbb : (s == "") with
    | false => rfl
    | true => exact absurd (eq_of_beq hbb) hs
  show extractParts "" (ps ++ [⟨"text", some s, none⟩]) = Except.ok (pyStrip s)
  rw [extractParts_append, hps]
  simp [extractParts, extractStep, hb]

/-- Witness for the amended C3: a nested data part yielding `old` is
followed by the direct text part `hi`; the direct text part, being last,
wins. -/
theorem C3_last_part_wins_witness :
    _extract_latest_text ⟨"user", c3ps ++ [⟨"text", some "hi", none⟩], none⟩ =
      Except.ok (pyStrip "hi") :=
  C3_last_part_wins "user" none c3ps "old" "hi" rfl (by decide)

/-- Whenever claim C4's failure condition holds, `compare_companies`
returns a singleton error mapping. -/
theorem cc_err_of_fetchErr (source : String → Except String (List (String × Json)))
    (t1 t2 : String) (h : fetchErr source t1 t2 = true) :
    ∃ msg, compare_companies source t1 t2 = [("error", Json.str msg)] := by
  cases h1 : (t1 == "" || t2 == "") with
  | true =>
    refine ⟨"Both ticker symbols must be provided.", ?_⟩
    simp [compare_companies, h1]
  | false =>
    unfold fetchErr at h
    rw [h1] at h
    simp only [Bool.false_or] at h
    cases hs1 : source t1 with
    | error e =>
      refine ⟨"An unexpected error occurred: " ++ e, ?_⟩
      simp [compare_companies, h1, hs1]
    | ok c1 =>
      simp only [hs1] at h
      cases hs2 : source t2 with
      | error e =>
        refine ⟨"An unexpected error occurred: " ++ e, ?_⟩
        simp [compare_companies, h1, hs1, hs2]
      | ok c2 =>
        simp only [hs2] at h
        cases hc1 : (c1.isEmpty || !hasKey c1 "shortName") with
        | true =>
          refine ⟨notRetrievedMsg t1, ?_⟩
          simp only [compare_companies, h1, Bool.false_eq_true, if_false, hs1, hs2, hc1,
            if_true]
        | false =>
          rw [hc1] at h
          simp only [Bool.false_or] at h
          refine ⟨notRetrievedMsg t2, ?_⟩
          simp only [compare_companies, h1, Bool.false_eq_true, if_false, hs1, hs2, hc1, h,
            if_true]

/-- Whenever claim C4's failure condition fails, `compare_companies`
returns the insight plus the two nine-metric mappings with the `N/A`
sentinel substituted for missing metrics. -/
theorem cc_ok_of_not_fetchErr (source : String → Except String (List (String × Json)))
    (t1 t2 : String) (h : fetchErr source t1 t2 = false) :
    ∀ c1 c2, source t1 = Except.ok c1 → source t2 = Except.ok c2 →
      compare_companies source t1 t2 =
        [("insight", Json.str (mkInsight
            (metrics.map (fun m => (m, dictGetD c1 m (Json.str "N/A"))))
            (metrics.map (fun m => (m, dictGetD c2 m (Json.str "N/A")))))),
         ("company1", Json.obj (metrics.map (fun m => (m, dictGetD c1 m (Json.str "N/A"))))),
         ("company2", Json.obj (metrics.map (fun m => (m, dictGetD c2 m (Json.str "N/A")))))] := by
  intro c1 c2 hs1 hs2
  unfold fetchErr at h
  obtain ⟨h12, hX⟩ := Bool.or_eq_false_iff.mp h
  simp only [hs1, hs2] at hX
  obtain ⟨habc, hd⟩ := Bool.or_eq_false_iff.mp hX
  obtain ⟨hab, hc⟩ := Bool.or_eq_false_iff.mp habc
  simp only [compare_companies, h12, Bool.false_eq_true, if_false, hs1, hs2,
    hab, hc, hd, Bool.or_false, Bool.false_or]

/-- Claim C4: for every data source behaviour and ticker pair,
`compare_companies` never raises, and it returns a mapping holding exactly
one `error` key (and nothing else) precisely when a ticker is empty, the
source raises, or a returned record lacks the canonical `shortName` field;
otherwise the result has no `error` key, an `insight` text, and `company1`
and `company2` mappings covering the fixed nine-metric set with `N/A`
substituted for missing metrics.  (Totality of the embedded function is
the never-raises part.) -/
theorem C4_fetch_soft_fail (source : String → Except String (List (String × Json)))
    (t1 t2 : String) :
    ((∃ msg, compare_companies source t1 t2 = [("error", Json.str msg)]) ↔
      fetchErr source t1 t2 = true) ∧
    (fetchErr source t1 t2 = false →
      ∀ c1 c2, source t1 = Except.ok c1 → source t2 = Except.ok c2 →
        dictGet? (compare_companies source t1 t2) "error" = none ∧
        (∃ ins, dictGet? (compare_companies source t1 t2) "insight" = some (Json.str ins)) ∧
        dictGet? (compare_companies source t1 t2) "company1" =
          some (Json.obj (metrics.map (fun m => (m, dictGetD c1 m (Json.str "N/A"))))) ∧
        dictGet? (compare_companies source t1 t2) "company2" =
          some (Json.obj (metrics.map (fun m => (m, dictGetD c2 m (Json.str "N/A")))))) := by
  constructor
  · constructor
    · rintro ⟨msg, hmsg⟩
      by_contra hf
      rw [Bool.not_eq_true] at hf
      cases hs1 : source t1 with
      | error e =>
        unfold fetchErr at hf
        simp [hs1] at hf
      | ok c1 =>
        cases hs2 : source t2 with
        | error e =>
          unfold fetchErr at hf
          simp [hs1, hs2] at hf
        | ok c2 =>
          have hcc := cc_ok_of_not_fetchErr source t1 t2 hf c1 c2 hs1 hs2
          rw [hcc] at hmsg
          simp at hmsg
    · intro hf
      exact cc_err_of_fetchErr source t1 t2 hf
  · intro hf c1 c2 hs1 hs2
    have hcc := cc_ok_of_not_fetchErr source t1 t2 hf c1 c2 hs1 hs2
    rw [hcc]
    exact ⟨rfl, ⟨_, rfl⟩, rfl, rfl⟩

/-- Witness for C4 at a concrete data source: a valid pair yields no error
and the metric mappings (with `N/A` filled in for the sparse record), and
an empty first ticker yields the singleton error mapping. -/
theorem C4_fetch_soft_fail_witness :
    fetchErr demoSource "AAPL" "MSFT" = false ∧
    dictGet? (compare_companies demoSource "AAPL" "MSFT") "error" = none ∧
    dictGet? (compare_companies demoSource "AAPL" "MSFT") "company2" =
      some (Json.obj (metrics.map (fun m =>
        (m, dictGetD [("shortName", Json.str "Microsoft Corporation")] m (Json.str "N/A"))))) ∧
    (∃ msg, compare_companies demoSource "" "MSFT" = [("error", Json.str msg)]) :=
  ⟨rfl,
   ((C4_fetch_soft_fail demoSource "AAPL" "MSFT").2 rfl _ _ rfl rfl).1,
   ((C4_fetch_soft_fail demoSource "AAPL" "MSFT").2 rfl _ _ rfl rfl).2.2.2,
   (C4_fetch_soft_fail demoSource "" "MSFT").1.mpr rfl⟩

/-- Claim C5: when the intent filter accepts the text and the conversation
loop raises (model call or tool dispatch), `process_messages` returns a
`failed` outcome embedding the error text, with no artifacts, and the
stored conversation map is exactly the one it started with. -/
theorem C5_failed_outcome (env : Env) (fuel : Nat) (conv : ConvMap)
    (msgs : List A2AMessage) (ctxo tido : Option String) (cfg : Option Json)
    (fc ft : String) (m : A2AMessage) (t e : String)
    (h1 : msgs.getLast? = some m)
    (h2 : _extract_latest_text m = Except.ok t)
    (h3 : t ≠ "")
    (h4 : is_comparison_query t = true)
    (h5 : _chat_with_tools env fuel t (lookupD conv (pyOrFresh ctxo fc) []) =
      ChatOutcome.exn e) :
    process_messages env fuel conv msgs ctxo tido cfg fc ft =
      PyResult.ok
        (⟨pyOrFresh tido ft, pyOrFresh ctxo fc,
          ⟨"failed",
           ⟨"agent",
            [⟨"text", some ("An error occurred while processing your request: " ++ e), none⟩],
            some (pyOrFresh tido ft)⟩⟩,
          [],
          msgs ++ [⟨"agent",
            [⟨"text", some ("An error occurred while processing your request: " ++ e), none⟩],
            some (pyOrFresh tido ft)⟩]⟩,
         conv) := by
  have hb : (t == "") = false := by
    cases hbb : (t == "") with
    | false => rfl
    | true => exact absurd (eq_of_beq hbb) h3
  simp only [process_messages, h1, h2, hb, h4, Bool.not_true, Bool.false_eq_true,
    if_false, h5]

/-- Witness for C5: an environment whose model call raises `boom` on a
comparison query turns into a `failed` outcome with the error embedded and
an unchanged (empty) conversation store. -/
theorem C5_failed_outcome_witness :
    process_messages envBoom 1 [] [compareMsg] none none none "ctx" "task" =
      PyResult.ok
        (⟨"task", "ctx",
          ⟨"failed",
           ⟨"agent",
            [⟨"text", some ("An error occurred while processing your request: " ++ "boom"),
              none⟩],
            some "task"⟩⟩,
          [],
          [compareMsg] ++ [⟨"agent",
            [⟨"text", some ("An error occurred while processing your request: " ++ "boom"),
              none⟩],
            some "task"⟩]⟩,
         []) :=
  C5_failed_outcome envBoom 1 [] [compareMsg] none none none "ctx" "task"
    compareMsg "compare a and b" "boom" rfl rfl (by decide) (by decide) rfl

/-- Claim C6: a non-comparison text yields — under any environment, fuel,
identifiers and freshness oracles — a `completed` outcome carrying the
fixed refusal text and no artifacts, and leaves the stored conversation
map untouched; hence two submissions of the same text produce identical
refusal texts and no side effect, and the conversation loop is never
consulted (the outcome does not depend on the environment). -/
theorem C6_refusal_idempotent (env env2 : Env) (fuel fuel2 : Nat) (conv : ConvMap)
    (msgs : List A2AMessage) (ctxo tido ctxo2 tido2 : Option String)
    (cfg cfg2 : Option Json) (fc ft fc2 ft2 : String) (m : A2AMessage) (t : String)
    (h1 : msgs.getLast? = some m)
    (h2 : _extract_latest_text m = Except.ok t)
    (h3 : t ≠ "")
    (h4 : is_comparison_query t = false) :
    ∃ r1 r2,
      process_messages env fuel conv msgs ctxo tido cfg fc ft = PyResult.ok (r1, conv) ∧
      process_messages env2 fuel2 conv msgs ctxo2 tido2 cfg2 fc2 ft2 = PyResult.ok (r2, conv) ∧
      r1.status.state = "completed" ∧ r2.status.state = "completed" ∧
      r1.status.message.parts = [⟨"text", some refusalText, none⟩] ∧
      r2.status.message.parts = [⟨"text", some refusalText, none⟩] ∧
      r1.artifacts = [] ∧ r2.artifacts = [] := by
  have hb : (t == "") = false := by
    cases hbb : (t == "") with
    | false => rfl
    | true => exact absurd (eq_of_beq hbb) h3
  refine
    ⟨⟨pyOrFresh tido ft, pyOrFresh ctxo fc,
      ⟨"completed",
       ⟨"agent", [⟨"text", some refusalText, none⟩], some (pyOrFresh tido ft)⟩⟩,
      [],
      msgs ++ [⟨"agent", [⟨"text", some refusalText, none⟩], some (pyOrFresh tido ft)⟩]⟩,
     ⟨pyOrFresh tido2 ft2, pyOrFresh ctxo2 fc2,
      ⟨"completed",
       ⟨"agent", [⟨"text", some refusalText, none⟩], some (pyOrFresh tido2 ft2)⟩⟩,
      [],
      msgs ++ [⟨"agent", [⟨"text", some refusalText, none⟩], some (pyOrFresh tido2 ft2)⟩]⟩,
     ?_, ?_, rfl, rfl, rfl, rfl, rfl, rfl⟩
  · simp only [process_messages, h1, h2, hb, h4, Bool.not_false, Bool.false_eq_true,
      if_false, if_true]
  · simp only [process_messages, h1, h2, hb, h4, Bool.not_false, Bool.false_eq_true,
      if_false, if_true]

/-- Witness for C6: submitting `hello` under two different environments
yields the refusal outcome twice with the store unchanged. -/
theorem C6_refusal_idempotent_witness :
    ∃ r1 r2,
      process_messages envBoom 1 [] [helloMsg] none none none "c1" "t1" =
        PyResult.ok (r1, []) ∧
      process_messages envStop 7 [] [helloMsg] none none none "c2" "t2" =
        PyResult.ok (r2, []) ∧
      r1.status.state = "completed" ∧ r2.status.state = "completed" ∧
      r1.status.message.parts = [⟨"text", some refusalText, none⟩] ∧
      r2.status.message.parts = [⟨"text", some refusalText, none⟩] ∧
      r1.artifacts = [] ∧ r2.artifacts = [] :=
  C6_refusal_idempotent envBoom envStop 1 7 [] [helloMsg] none none none none
    none none "c1" "t1" "c2" "t2" helloMsg "hello" rfl rfl (by decide) (by decide)

/-- Claim C9: every `TaskResult` that `process_messages` returns — refusal,
success, or failure path — carries a `history` field equal to the inbound
messages with exactly the response message (the one in its status)
appended. -/
theorem C9_history_appends_response (env : Env) (fuel : Nat) (conv : ConvMap)
    (msgs : List A2AMessage) (ctxo tido : Option String) (cfg : Option Json)
    (fc ft : String) (r : TaskResult) (conv2 : ConvMap)
    (h : process_messages env fuel conv msgs ctxo tido cfg fc ft = PyResult.ok (r, conv2)) :
    r.history = msgs ++ [r.status.message] := by
  simp only [process_messages] at h
  cases hl : msgs.getLast? with
  | none => simp only [hl] at h; cases h
  | some m =>
    simp only [hl] at h
    cases he : _extract_latest_text m with
    | error e => simp only [he] at h; cases h
    | ok t =>
      simp only [he] at h
      cases hb : (t == "") with
      | true => simp only [hb, if_true] at h; cases h
      | false =>
        simp only [hb, Bool.false_eq_true, if_false] at h
        cases hq : is_comparison_query t with
        | false =>
          simp only [hq, Bool.not_false, if_true] at h
          simp only [PyResult.ok.injEq, Prod.mk.injEq] at h
          obtain ⟨hr, _⟩ := h
          subst hr
          rfl
        | true =>
          simp only [hq, Bool.not_true, Bool.false_eq_true, if_false] at h
          cases hc : _chat_with_tools env fuel t (lookupD conv (pyOrFresh ctxo fc) []) with
          | diverge => simp only [hc] at h; cases h
          | exn e =>
            simp only [hc, PyResult.ok.injEq, Prod.mk.injEq] at h
            obtain ⟨hr, _⟩ := h
            subst hr
            rfl
          | ok c d nh fin =>
            simp only [hc, PyResult.ok.injEq, Prod.mk.injEq] at h
            obtain ⟨hr, _⟩ := h
            subst hr
            rfl

/-- Witness for C9 on the refusal path at a concrete input. -/
theorem C9_history_appends_response_witness :
    ∃ r, process_messages envBoom 1 [] [helloMsg] none none none "c" "t" =
        PyResult.ok (r, []) ∧
      r.history = [helloMsg] ++ [r.status.message] := by
  have h : process_messages envBoom 1 [] [helloMsg] none none none "c" "t" =
      PyResult.ok
        (⟨"t", "c",
          ⟨"completed", ⟨"agent", [⟨"text", some refusalText, none⟩], some "t"⟩⟩,
          [], [helloMsg] ++ [⟨"agent", [⟨"text", some refusalText, none⟩], some "t"⟩]⟩,
         []) := rfl
  exact ⟨_, h,
    C9_history_appends_response envBoom 1 [] [helloMsg] none none none "c" "t" _ [] h⟩

/-- Claim C7: the intent filter returns `true` for every text containing
one of the fixed comparison pattern words (`compare`, `versus`, `vs`,
`better`, `worse`, `between`, `than`), matched case-insensitively at word
boundaries, and returns `false` only for texts containing none of the
patterns — equivalently, a `false` answer rules out every one of the
listed words. -/
theorem C7_intent_filter_words (text : String) :
    ((∃ w ∈ claimWords, containsWordCI w text = true) → is_comparison_query text = true) ∧
    (is_comparison_query text = false → ∀ w ∈ claimWords, containsWordCI w text = false) := by
  have h1 : (∃ w ∈ claimWords, containsWordCI w text = true) →
      is_comparison_query text = true := by
    rintro ⟨w, hw, hcw⟩
    simp only [claimWords, List.mem_cons, List.not_mem_nil, or_false] at hw
    rcases hw with rfl | rfl | rfl | rfl | rfl | rfl | rfl <;>
      (simp only [containsWordCI] at hcw; simp [is_comparison_query, hcw])
  refine ⟨h1, ?_⟩
  intro hf w hw
  cases hcw : containsWordCI w text with
  | false => rfl
  | true =>
    have htrue := h1 ⟨w, hw, hcw⟩
    rw [htrue] at hf
    exact Bool.noConfusion hf

/-- Witness for C7: a text containing the pattern word `compare` is
accepted, and a rejected text (`hello`) contains none of the listed
words. -/
theorem C7_intent_filter_words_witness :
    is_comparison_query "Compare Apple and Microsoft" = true ∧
    (∀ w ∈ claimWords, containsWordCI w "hello" = false) :=
  ⟨(C7_intent_filter_words "Compare Apple and Microsoft").1
     ⟨"compare", by decide, by decide⟩,
   (C7_intent_filter_words "hello").2 (by decide)⟩

/-- Claim C10: a well-formed envelope whose method is neither
`message/send` nor `execute` leaves the message list empty, so
`process_messages` raises the no-message input error, and the endpoint
converts it into HTTP 500 with JSON-RPC code -32603 (the
`internalErrorBody`) rather than any method-not-found code. -/
theorem C10_unknown_method (env : Env) (fuel : Nat) (conv : ConvMap)
    (fc ft : String) (fields : List (String × Json)) (rpc : RpcRequest)
    (h1 : jsonrpcOk fields = true)
    (h2 : hasKey fields "id" = true)
    (h3 : parseRpcRequest fields = Except.ok rpc)
    (h4 : rpc.method ≠ "message/send")
    (h5 : rpc.method ≠ "execute") :
    process_messages env fuel conv [] none none none fc ft =
      PyResult.exn "No message provided" ∧
    a2a_endpoint env fuel conv fc ft (Except.ok (Json.obj fields)) =
      (HttpOutcome.resp 500
        (internalErrorBody (dictGetD fields "id" Json.null) "No message provided"),
       conv) := by
  have hm1 : (rpc.method == "message/send") = false := by
    cases hbb : (rpc.method == "message/send") with
    | false => rfl
    | true => exact absurd (eq_of_beq hbb) h4
  have hm2 : (rpc.method == "execute") = false := by
    cases hbb : (rpc.method == "execute") with
    | false => rfl
    | true => exact absurd (eq_of_beq hbb) h5
  constructor
  · rfl
  · simp only [a2a_endpoint, h1, h2, Bool.not_true, Bool.or_self, Bool.false_eq_true,
      if_false, h3, extractCall, hm1, hm2]
    rfl

/-- Witness for C10 at a concrete envelope with method `tasks/get`. -/
theorem C10_unknown_method_witness :
    process_messages envBoom 1 [] [] none none none "c" "t" =
      PyResult.exn "No message provided" ∧
    a2a_endpoint envBoom 1 [] "c" "t"
      (Except.ok (Json.obj
        [("jsonrpc", Json.str "2.0"), ("id", Json.num 1),
         ("method", Json.str "tasks/get")])) =
      (HttpOutcome.resp 500
        (internalErrorBody
          (dictGetD
            [("jsonrpc", Json.str "2.0"), ("id", Json.num 1),
             ("method", Json.str "tasks/get")] "id" Json.null)
          "No message provided"),
       []) :=
  C10_unknown_method envBoom 1 [] "c" "t"
    [("jsonrpc", Json.str "2.0"), ("id", Json.num 1), ("method", Json.str "tasks/get")]
    ⟨Json.num 1, "tasks/get", none⟩ rfl rfl rfl (by decide) (by decide)

/-- Claim C8 (code bug): a request body that is valid JSON but not an
object — here the array `[]` — makes `body.get("jsonrpc")` raise
`AttributeError`; the handler's own `except` clause then evaluates
`body.get("id")` and raises again, so the exception escapes the handler
and neither the 400 (code -32600) nor the 500 (code -32603) JSON-RPC
response the claim requires is produced. -/
theorem C8_nonobject_body_escapes_handler :
    a2a_endpoint envBoom 1 [] "c" "t" (Except.ok (Json.arr [])) =
      (HttpOutcome.raised "AttributeError: object has no attribute get", []) :=
  rfl
